import Mathlib

/-!
Shallow embedding of the shop_api backend (src/app.py).

The SQLite database is modeled as four lists of rows (products, customers,
orders, order_details) together with the AUTOINCREMENT counters for the two
tables whose inserts the modeled endpoints perform.  Monetary amounts (the
REAL columns price and total) are modeled as exact integers: every claim is
about exact arithmetic over currency amounts, and the embedding keeps that
arithmetic exact.

Each HTTP handler becomes a function from the database state (and the parsed
request body) to a result value paired with the database state after the
request.  Two facts about the Python code are modeled explicitly:

* `with sqlite3.connect(...) as conn:` commits the open transaction whenever
  the block is left normally — including by an early `return` of an error
  response — and rolls it back only when an exception escapes the block.
  Hence an error `return` issued after some INSERT/DELETE statements leaves
  those writes committed, while a KeyError (a missing key in the JSON body)
  rolls everything back and surfaces as a 500 response.

* A missing key in the request JSON (`data['customer_id']`, `data['total']`)
  raises KeyError; request bodies are therefore records of `Option` fields,
  and the handlers take the 500 path when a key they access is `none`.
-/

namespace ShopApi

structure Product where
  id : Nat
  name : String
  price : Int
  image : Option String
  description : Option String
deriving DecidableEq

structure Customer where
  id : Nat
  name : String
  phone : String
deriving DecidableEq

structure Order where
  id : Nat
  customer_id : Nat
  order_date : String
  total : Int
deriving DecidableEq

structure OrderDetail where
  id : Nat
  order_id : Nat
  product_id : Nat
  quantity : Int
  price : Int
deriving DecidableEq

structure DB where
  products : List Product
  customers : List Customer
  orders : List Order
  order_details : List OrderDetail
  nextOrderId : Nat
  nextDetailId : Nat
deriving DecidableEq

/-- SELECT * FROM products WHERE id = ? ; fetchone() -/
def findProduct (db : DB) (pid : Nat) : Option Product :=
  db.products.find? (fun p => p.id == pid)

/-- SELECT * FROM customers WHERE id = ? ; fetchone() -/
def findCustomer (db : DB) (cid : Nat) : Option Customer :=
  db.customers.find? (fun c => c.id == cid)

/-- SELECT * FROM orders WHERE id = ? ; fetchone() -/
def findOrder (db : DB) (oid : Nat) : Option Order :=
  db.orders.find? (fun o => o.id == oid)

/-- UPDATE orders SET total = ? WHERE id = ? -/
def updateOrderTotal (db : DB) (oid : Nat) (t : Int) : DB :=
  { db with orders := db.orders.map (fun o => if o.id == oid then { o with total := t } else o) }

/-- UPDATE orders SET customer_id = ?, total = ? WHERE id = ? -/
def setOrderCustomerTotal (db : DB) (oid : Nat) (cid : Nat) (t : Int) : DB :=
  { db with orders := db.orders.map (fun o =>
      if o.id == oid then { o with customer_id := cid, total := t } else o) }

/-- DELETE FROM order_details WHERE order_id = ? -/
def deleteDetails (db : DB) (oid : Nat) : DB :=
  { db with order_details := db.order_details.filter (fun d => !(d.order_id == oid)) }

/-- One element of the "products" array of an order request body:
\x7bproduct_id, quantity, price\x7d. -/
structure LineItemReq where
  product_id : Nat
  quantity : Int
  price : Int
deriving DecidableEq

/-- INSERT INTO order_details (order_id, product_id, quantity, price) VALUES (?,?,?,?) -/
def addDetail (db : DB) (oid : Nat) (it : LineItemReq) : DB :=
  { db with
    order_details := db.order_details ++
      [{ id := db.nextDetailId, order_id := oid, product_id := it.product_id,
         quantity := it.quantity, price := it.price }],
    nextDetailId := db.nextDetailId + 1 }

/-- The line-item insertion loop shared by order creation and order update:
for each item, check the product exists (returning its id on failure, with the
writes made so far still in place, as the commit-on-return semantics dictates)
and insert the order_details row. -/
def insertItems (oid : Nat) : List LineItemReq → DB → Option Nat × DB
  | [], db => (none, db)
  | it :: rest, db =>
    match findProduct db it.product_id with
    | none => (some it.product_id, db)
    | some _ => insertItems oid rest (addDetail db oid it)

/-- total = 0; for product in data['products']: total += price * quantity -/
def orderTotal (items : List LineItemReq) : Int :=
  (items.map (fun it => it.price * it.quantity)).sum

/-- Request body of POST /orders.  Each field is optional: a missing JSON key
is `none`.  The `total` field is never read by the creation handler. -/
structure CreateOrderReq where
  customer_id : Option Nat
  total : Option Int
  products : Option (List LineItemReq)
deriving DecidableEq

inductive CreateOrderResult where
  | badRequest
  | customerNotFound (cid : Nat)
  | productNotFound (pid : Nat)
  | internalError
  | created (order_id : Nat) (total : Int)
deriving DecidableEq

/-- HTTP status code of each POST /orders outcome. -/
def CreateOrderResult.status : CreateOrderResult → Nat
  | .badRequest => 400
  | .customerNotFound _ => 404
  | .productNotFound _ => 404
  | .internalError => 500
  | .created _ _ => 201

/-- INSERT INTO orders (customer_id, order_date, total) VALUES (?,?,?);
lastrowid is the AUTOINCREMENT value `db.nextOrderId`. -/
def insertOrderRow (db : DB) (cid : Nat) (now : String) (t : Int) : DB :=
  { db with
    orders := db.orders ++
      [{ id := db.nextOrderId, customer_id := cid, order_date := now, total := t }],
    nextOrderId := db.nextOrderId + 1 }

/-- POST /orders (create_order).  `now` is datetime.now() formatted. -/
def create_order (db : DB) (now : String) (req : CreateOrderReq) :
    CreateOrderResult × DB :=
  match req.products with
  | none => (.badRequest, db)
  | some items =>
    match req.customer_id with
    | none => (.internalError, db)
    | some cid =>
      match findCustomer db cid with
      | none => (.customerNotFound cid, db)
      | some _ =>
        match (insertItems db.nextOrderId items
            (insertOrderRow db cid now (orderTotal items))).1 with
        | some pid =>
          (.productNotFound pid,
           (insertItems db.nextOrderId items
             (insertOrderRow db cid now (orderTotal items))).2)
        | none =>
          (.created db.nextOrderId (orderTotal items),
           (insertItems db.nextOrderId items
             (insertOrderRow db cid now (orderTotal items))).2)

/-- order_details rows of order `oid` joined with products (an inner join:
rows whose product id does not resolve are dropped), in row order. -/
def detailsFor (db : DB) (oid : Nat) : List OrderDetail :=
  (db.order_details.filter (fun d => d.order_id == oid)).filter
    (fun d => (findProduct db d.product_id).isSome)

/-- sum(detail['price'] * detail['quantity'] for detail in details) -/
def sumDetails (details : List OrderDetail) : Int :=
  (details.map (fun d => d.price * d.quantity)).sum

inductive GetOrderResult where
  | notFound
  | ok (total : Int) (details : List OrderDetail)
deriving DecidableEq

/-- HTTP status code of each GET /orders/id outcome. -/
def GetOrderResult.status : GetOrderResult → Nat
  | .notFound => 404
  | .ok _ _ => 200

/-- GET /orders/id (get_order): join with the customer row, fetch the joined
details, and if the stored total is zero while the details sum to a positive
amount, persist the recomputed total (write-on-read repair) and return it. -/
def get_order (db : DB) (oid : Nat) : GetOrderResult × DB :=
  match findOrder db oid with
  | none => (.notFound, db)
  | some o =>
    match findCustomer db o.customer_id with
    | none => (.notFound, db)
    | some _ =>
      if o.total = 0 ∧ detailsFor db oid ≠ [] then
        if 0 < sumDetails (detailsFor db oid) then
          (.ok (sumDetails (detailsFor db oid)) (detailsFor db oid),
           updateOrderTotal db oid (sumDetails (detailsFor db oid)))
        else
          (.ok o.total (detailsFor db oid), db)
      else
        (.ok o.total (detailsFor db oid), db)

/-- Request body of PUT /orders/id; every key is optional. -/
structure UpdateOrderReq where
  customer_id : Option Nat
  total : Option Int
  products : Option (List LineItemReq)
deriving DecidableEq

inductive UpdateOrderResult where
  | orderNotFound
  | customerNotFound (cid : Nat)
  | productNotFound (pid : Nat)
  | internalError
  | updated
deriving DecidableEq

/-- HTTP status code of each PUT /orders/id outcome. -/
def UpdateOrderResult.status : UpdateOrderResult → Nat
  | .orderNotFound => 404
  | .customerNotFound _ => 404
  | .productNotFound _ => 404
  | .internalError => 500
  | .updated => 200

/-- The products branch of PUT /orders/id: when a new list is supplied, delete
the old order_details rows and insert the new ones, aborting (with the writes
so far committed) on the first unresolved product id. -/
def updateProducts (db : DB) (oid : Nat) (prods : Option (List LineItemReq)) :
    UpdateOrderResult × DB :=
  match prods with
  | none => (.updated, db)
  | some items =>
    match (insertItems oid items (deleteDetails db oid)).1 with
    | some pid => (.productNotFound pid, (insertItems oid items (deleteDetails db oid)).2)
    | none => (.updated, (insertItems oid items (deleteDetails db oid)).2)

/-- PUT /orders/id (update_order).  The customer branch reads data['total'];
a request that supplies customer_id without total raises KeyError, which rolls
the transaction back (internalError with the original state). -/
def update_order (db : DB) (oid : Nat) (req : UpdateOrderReq) :
    UpdateOrderResult × DB :=
  match findOrder db oid with
  | none => (.orderNotFound, db)
  | some _ =>
    match req.customer_id with
    | none => updateProducts db oid req.products
    | some cid =>
      match findCustomer db cid with
      | none => (.customerNotFound cid, db)
      | some _ =>
        match req.total with
        | none => (.internalError, db)
        | some t => updateProducts (setOrderCustomerTotal db oid cid t) oid req.products

inductive DeleteResult where
  | conflict
  | notFound
  | deleted
deriving DecidableEq

/-- HTTP status code of each DELETE outcome (the "in use" conflict is
reported as 400 by the handlers). -/
def DeleteResult.status : DeleteResult → Nat
  | .conflict => 400
  | .notFound => 404
  | .deleted => 200

/-- DELETE /products/id (delete_product): count the order_details rows
referencing the product first; a nonzero count blocks the deletion. -/
def delete_product (db : DB) (pid : Nat) : DeleteResult × DB :=
  if 0 < db.order_details.countP (fun d => d.product_id == pid) then
    (.conflict, db)
  else if db.products.countP (fun p => p.id == pid) = 0 then
    (.notFound, db)
  else
    (.deleted, { db with products := db.products.filter (fun p => !(p.id == pid)) })

/-- DELETE /customers/id (delete_customer): count the orders referencing the
customer first; a nonzero count blocks the deletion. -/
def delete_customer (db : DB) (cid : Nat) : DeleteResult × DB :=
  if 0 < db.orders.countP (fun o => o.customer_id == cid) then
    (.conflict, db)
  else if db.customers.countP (fun c => c.id == cid) = 0 then
    (.notFound, db)
  else
    (.deleted, { db with customers := db.customers.filter (fun c => !(c.id == cid)) })

/-- DELETE /orders/id (delete_order): existence check, then cascade the
order_details rows, then the order row. -/
def delete_order (db : DB) (oid : Nat) : DeleteResult × DB :=
  match findOrder db oid with
  | none => (.notFound, db)
  | some _ =>
    (.deleted,
      { db with
        order_details := db.order_details.filter (fun d => !(d.order_id == oid)),
        orders := db.orders.filter (fun o => !(o.id == oid)) })

/-- SELECT SUM(quantity * price) FROM order_details WHERE order_id = ?,
with SQL's NULL-on-empty coerced to 0 by `or 0`. -/
def rawSum (db : DB) (oid : Nat) : Int :=
  ((db.order_details.filter (fun d => d.order_id == oid)).map
    (fun d => d.quantity * d.price)).sum

/-- ids of the orders whose stored total is zero, in table order. -/
def zeroTotalIds (db : DB) : List Nat :=
  (db.orders.filter (fun o => o.total == 0)).map (fun o => o.id)

/-- Loop body of fix_orders_with_zero_total: recompute one order's total from
its order_details rows and persist it when positive, counting the updates. -/
def fixStep (acc : Nat × DB) (oid : Nat) : Nat × DB :=
  if 0 < rawSum acc.2 oid then
    (acc.1 + 1, updateOrderTotal acc.2 oid (rawSum acc.2 oid))
  else acc

/-- GET /fix-orders-with-zero-total: scan the zero-total orders, repair each
one whose recomputed total is positive, and answer with the update count and
the list bound to the "orders_fixed" key — which is the full scan list. -/
def fix_orders_with_zero_total (db : DB) : (Nat × List Nat) × DB :=
  ((((zeroTotalIds db).foldl fixStep (0, db)).1, zeroTotalIds db),
   ((zeroTotalIds db).foldl fixStep (0, db)).2)

/-- A concrete store used to instantiate the theorems below: two products,
two customers, one order for customer 1 with one line item (2 × 100). -/
def wDB : DB :=
  { products := [⟨1, "X", 100, none, none⟩, ⟨2, "Y", 50, none, none⟩],
    customers := [⟨1, "A", "123"⟩, ⟨2, "B", "456"⟩],
    orders := [⟨1, 1, "2024-01-01 00:00:00", 200⟩],
    order_details := [⟨1, 1, 1, 2, 100⟩],
    nextOrderId := 2, nextDetailId := 2 }

/-- Same store, but the order's stored total is zero (a violated invariant
that the repair operations must fix: its line item sums to 200). -/
def wDBzero : DB :=
  { wDB with orders := [⟨1, 1, "2024-01-01 00:00:00", 0⟩] }

/-- The repaired version of `wDBzero`. -/
def wDBrepaired : DB :=
  { wDBzero with orders := [⟨1, 1, "2024-01-01 00:00:00", 200⟩] }

/-- A store holding one zero-total order that has no line items at all. -/
def wDBempty : DB :=
  { products := [], customers := [], orders := [⟨1, 7, "2024-01-01 00:00:00", 0⟩],
    order_details := [], nextOrderId := 2, nextDetailId := 1 }

/-! ## Helper lemmas -/

theorem insertItems_snd_orders (oid : Nat) :
    ∀ (items : List LineItemReq) (db : DB),
      ((insertItems oid items db).2).orders = db.orders
  | [], _ => rfl
  | it :: rest, db => by
    unfold insertItems
    cases findProduct db it.product_id with
    | none => rfl
    | some p => exact insertItems_snd_orders oid rest (addDetail db oid it)

theorem insertItems_snd_products (oid : Nat) :
    ∀ (items : List LineItemReq) (db : DB),
      ((insertItems oid items db).2).products = db.products
  | [], _ => rfl
  | it :: rest, db => by
    unfold insertItems
    cases findProduct db it.product_id with
    | none => rfl
    | some p => exact insertItems_snd_products oid rest (addDetail db oid it)

theorem insertItems_snd_customers (oid : Nat) :
    ∀ (items : List LineItemReq) (db : DB),
      ((insertItems oid items db).2).customers = db.customers
  | [], _ => rfl
  | it :: rest, db => by
    unfold insertItems
    cases findProduct db it.product_id with
    | none => rfl
    | some p => exact insertItems_snd_customers oid rest (addDetail db oid it)

theorem insertItems_fst_none (oid : Nat) :
    ∀ (items : List LineItemReq) (db : DB),
      (∀ it ∈ items, (findProduct db it.product_id).isSome) →
      (insertItems oid items db).1 = none
  | [], _, _ => rfl
  | it :: rest, db, h => by
    unfold insertItems
    obtain ⟨p, hp⟩ := Option.isSome_iff_exists.mp (h it (List.mem_cons_self it rest))
    rw [hp]
    exact insertItems_fst_none oid rest (addDetail db oid it)
      (fun it2 h2 => h it2 (List.mem_cons_of_mem it h2))

theorem updateProducts_snd_orders (db : DB) (oid : Nat)
    (prods : Option (List LineItemReq)) :
    ((updateProducts db oid prods).2).orders = db.orders := by
  cases prods with
  | none => rfl
  | some items =>
    have h1 : (updateProducts db oid (some items)).2
        = (insertItems oid items (deleteDetails db oid)).2 := by
      simp only [updateProducts]
      cases (insertItems oid items (deleteDetails db oid)).1 <;> rfl
    rw [h1, insertItems_snd_orders]
    rfl

theorem find?_update_total (oid : Nat) (t : Int) :
    ∀ l : List Order,
      (l.map (fun o => if o.id == oid then { o with total := t } else o)).find?
          (fun o => o.id == oid)
        = (l.find? (fun o => o.id == oid)).map (fun o => { o with total := t })
  | [] => rfl
  | o :: rest => by
    by_cases h : o.id = oid
    · simp [List.find?_cons, h]
    · have hb : ¬ ((o.id == oid) = true) := by simpa using h
      have hb2 : ¬ ((((if o.id == oid then { o with total := t } else o) : Order).id == oid)
          = true) := by
        rw [if_neg hb]
        exact hb
      have hrw1 : List.find? (fun o2 : Order => o2.id == oid)
          ((if o.id == oid then { o with total := t } else o) ::
            rest.map (fun o2 => if o2.id == oid then { o2 with total := t } else o2))
          = List.find? (fun o2 : Order => o2.id == oid)
            (rest.map (fun o2 => if o2.id == oid then { o2 with total := t } else o2)) :=
        List.find?_cons_of_neg _ hb2
      have hrw2 : List.find? (fun o2 : Order => o2.id == oid) (o :: rest)
          = List.find? (fun o2 : Order => o2.id == oid) rest :=
        List.find?_cons_of_neg _ hb
      rw [List.map_cons, hrw1, hrw2]
      exact find?_update_total oid t rest

theorem findOrder_updateOrderTotal (db : DB) (oid : Nat) (t : Int) :
    findOrder (updateOrderTotal db oid t) oid
      = (findOrder db oid).map (fun o => { o with total := t }) :=
  find?_update_total oid t db.orders

/-! ## Claim theorems -/

/-- Claim C7: a product referenced by at least one order line item cannot be
deleted: the request answers Conflict and the whole store — in particular the
product row — is left unchanged, the dependency check running before any
deletion; likewise a customer referenced by at least one order. -/
theorem delete_referenced_conflict (db : DB) (pid cid : Nat) :
    ((∃ d ∈ db.order_details, d.product_id = pid) →
      delete_product db pid = (.conflict, db))
    ∧ ((∃ o ∈ db.orders, o.customer_id = cid) →
      delete_customer db cid = (.conflict, db)) := by
  constructor
  · rintro ⟨d, hd, hpid⟩
    have hcount : 0 < db.order_details.countP (fun d2 => d2.product_id == pid) :=
      List.countP_pos_iff.mpr ⟨d, hd, by simp [hpid]⟩
    simp [delete_product, hcount]
  · rintro ⟨o, ho, hcid⟩
    have hcount : 0 < db.orders.countP (fun o2 => o2.customer_id == cid) :=
      List.countP_pos_iff.mpr ⟨o, ho, by simp [hcid]⟩
    simp [delete_customer, hcount]

/-- Witness for C7 at a concrete store: product 1 sits in a line item and
customer 1 owns an order, so both deletions answer Conflict and change
nothing. -/
theorem delete_referenced_conflict_witness :
    delete_product wDB 1 = (.conflict, wDB)
    ∧ delete_customer wDB 1 = (.conflict, wDB) :=
  ⟨(delete_referenced_conflict wDB 1 1).1 ⟨⟨1, 1, 1, 2, 100⟩, by decide, rfl⟩,
   (delete_referenced_conflict wDB 1 1).2
     ⟨⟨1, 1, "2024-01-01 00:00:00", 200⟩, by decide, rfl⟩⟩

/-- Claim C8: deleting a nonexistent order answers NotFound and deletes
nothing; deleting an existing order removes exactly its line items and the
order row, so afterwards neither the order nor any of its line items remain
(products and customers untouched). -/
theorem delete_order_cascades (db : DB) (oid : Nat) :
    (findOrder db oid = none → delete_order db oid = (.notFound, db))
    ∧ ((findOrder db oid).isSome →
        delete_order db oid =
          (.deleted,
            { db with
              order_details := db.order_details.filter (fun d => !(d.order_id == oid)),
              orders := db.orders.filter (fun o => !(o.id == oid)) })
        ∧ (∀ o ∈ ((delete_order db oid).2).orders, o.id ≠ oid)
        ∧ (∀ d ∈ ((delete_order db oid).2).order_details, d.order_id ≠ oid)
        ∧ ((delete_order db oid).2).products = db.products
        ∧ ((delete_order db oid).2).customers = db.customers) := by
  constructor
  · intro h
    simp [delete_order, h]
  · intro h
    obtain ⟨o0, h0⟩ := Option.isSome_iff_exists.mp h
    have hd : delete_order db oid =
        (.deleted,
          { db with
            order_details := db.order_details.filter (fun d => !(d.order_id == oid)),
            orders := db.orders.filter (fun o => !(o.id == oid)) }) := by
      simp [delete_order, h0]
    refine ⟨hd, ?_, ?_, ?_, ?_⟩
    · intro o hmem
      rw [hd] at hmem
      have := List.of_mem_filter hmem
      simpa using this
    · intro d hmem
      rw [hd] at hmem
      have := List.of_mem_filter hmem
      simpa using this
    · rw [hd]
    · rw [hd]

/-- Witness for C8 at a concrete store: deleting the missing order 9 answers
NotFound and changes nothing; deleting order 1 removes the order and its line
item. -/
theorem delete_order_cascades_witness :
    delete_order wDB 9 = (.notFound, wDB)
    ∧ delete_order wDB 1 =
        (.deleted, { wDB with orders := [], order_details := [] }) := by
  refine ⟨(delete_order_cascades wDB 9).1 (by decide), ?_⟩
  have h := ((delete_order_cascades wDB 1).2 (by decide)).1
  exact h.trans (by decide)

/-- Claim C9 (implicit): an order update whose body carries neither a
customer_id key nor a products key succeeds and leaves the store entirely
unchanged — a no-op, not an error. -/
theorem update_order_empty_body_noop (db : DB) (oid : Nat) (req : UpdateOrderReq)
    (ho : (findOrder db oid).isSome) (hc : req.customer_id = none)
    (hp : req.products = none) :
    update_order db oid req = (.updated, db) := by
  obtain ⟨o, h⟩ := Option.isSome_iff_exists.mp ho
  simp [update_order, h, hc, hp, updateProducts]

/-- Witness for C9 at a concrete store. -/
theorem update_order_empty_body_noop_witness :
    update_order wDB 1 ⟨none, none, none⟩ = (.updated, wDB) :=
  update_order_empty_body_noop wDB 1 ⟨none, none, none⟩ (by decide) rfl rfl

/-- Claim C10 (implicit): an order-creation body that has a products key but
no customer_id key does not take the 400 validation path; the missing-key
access surfaces as a 500 internal error (with the transaction rolled back). -/
theorem create_order_missing_customer_id (db : DB) (now : String)
    (req : CreateOrderReq) (items : List LineItemReq)
    (hp : req.products = some items) (hc : req.customer_id = none) :
    create_order db now req = (.internalError, db)
    ∧ (create_order db now req).1.status = 500
    ∧ (create_order db now req).1.status ≠ 400 := by
  have h : create_order db now req = (.internalError, db) := by
    simp [create_order, hp, hc]
  refine ⟨h, ?_, ?_⟩ <;> rw [h]
  · rfl
  · intro hx
    exact (by omega : ¬ (500 : Nat) = 400) hx

/-- Witness for C10 at a concrete store. -/
theorem create_order_missing_customer_id_witness :
    create_order wDB "2024-01-02 00:00:00" ⟨none, none, some [⟨1, 1, 50⟩]⟩
      = (.internalError, wDB) :=
  (create_order_missing_customer_id wDB "2024-01-02 00:00:00"
    ⟨none, none, some [⟨1, 1, 50⟩]⟩ [⟨1, 1, 50⟩] rfl rfl).1

/-- Claim C1: when the customer resolves and every line item's product
resolves, the created order row stores the server-computed total
sum(price_i * quantity_i), the same total is returned with the 201 response,
and the outcome is independent of any client-supplied total field. -/
theorem create_order_total_recomputed (db : DB) (now : String) (req : CreateOrderReq)
    (items : List LineItemReq) (cid : Nat)
    (hp : req.products = some items) (hc : req.customer_id = some cid)
    (hcust : (findCustomer db cid).isSome)
    (hprod : ∀ it ∈ items, (findProduct db it.product_id).isSome) :
    (create_order db now req).1 = .created db.nextOrderId (orderTotal items)
    ∧ ((create_order db now req).2).orders
        = db.orders ++ [⟨db.nextOrderId, cid, now, orderTotal items⟩]
    ∧ ∀ t, create_order db now { req with total := t } = create_order db now req := by
  obtain ⟨c, hc2⟩ := Option.isSome_iff_exists.mp hcust
  have hfst : (insertItems db.nextOrderId items
      (insertOrderRow db cid now (orderTotal items))).1 = none :=
    insertItems_fst_none db.nextOrderId items _ (fun it h2 => hprod it h2)
  have hco : create_order db now req
      = (.created db.nextOrderId (orderTotal items),
         (insertItems db.nextOrderId items
           (insertOrderRow db cid now (orderTotal items))).2) := by
    simp [create_order, hp, hc, hc2, hfst]
  refine ⟨by rw [hco], ?_, ?_⟩
  · rw [hco]
    show ((insertItems db.nextOrderId items
        (insertOrderRow db cid now (orderTotal items))).2).orders = _
    rw [insertItems_snd_orders]
    rfl
  · intro t
    have hco2 : create_order db now { req with total := t }
        = (.created db.nextOrderId (orderTotal items),
           (insertItems db.nextOrderId items
             (insertOrderRow db cid now (orderTotal items))).2) := by
      simp [create_order, hp, hc, hc2, hfst]
    rw [hco2, hco]

/-- Witness for C1 at a concrete store: two resolving line items, client
total 999 ignored, server total 2*100 + 1*50 = 250 returned and stored. -/
theorem create_order_total_recomputed_witness :
    (create_order wDB "2024-01-02 00:00:00"
        ⟨some 1, some 999, some [⟨1, 2, 100⟩, ⟨2, 1, 50⟩]⟩).1
      = .created 2 250
    ∧ ((create_order wDB "2024-01-02 00:00:00"
        ⟨some 1, some 999, some [⟨1, 2, 100⟩, ⟨2, 1, 50⟩]⟩).2).orders
      = [⟨1, 1, "2024-01-01 00:00:00", 200⟩, ⟨2, 1, "2024-01-02 00:00:00", 250⟩] := by
  have h := create_order_total_recomputed wDB "2024-01-02 00:00:00"
    ⟨some 1, some 999, some [⟨1, 2, 100⟩, ⟨2, 1, 50⟩]⟩ [⟨1, 2, 100⟩, ⟨2, 1, 50⟩] 1
    rfl rfl (by decide) (by decide)
  exact ⟨h.1.trans (by decide), h.2.1.trans (by decide)⟩

/-- Claim C2 is contradicted by the code: the sqlite connection context
manager commits on a normal early return, so when a later line item's product
does not resolve, the NotFound response is produced with the order row and the
earlier line-item rows already persisted.  At this input the response is
productNotFound 99, yet the store gained order 2 (total 205, computed over
all requested items) and the line-item row for the first, resolving item. -/
theorem create_order_commits_partial_on_missing_product :
    create_order wDB "2024-01-02 00:00:00"
        ⟨some 1, none, some [⟨1, 2, 100⟩, ⟨99, 1, 5⟩]⟩
      = (.productNotFound 99,
         { wDB with
           orders := [⟨1, 1, "2024-01-01 00:00:00", 200⟩,
                      ⟨2, 1, "2024-01-02 00:00:00", 205⟩],
           order_details := [⟨1, 1, 1, 2, 100⟩, ⟨2, 2, 1, 2, 100⟩],
           nextOrderId := 3, nextDetailId := 3 }) := by decide

/-- Claim C5 is contradicted by the code in the same way: when a new
line-item list contains an unresolved product id, the prior line items have
already been deleted and the resolving prefix of the new list inserted, and
the early NotFound return commits exactly that partial replacement. -/
theorem update_order_commits_partial_replacement :
    update_order wDB 1 ⟨none, none, some [⟨2, 1, 50⟩, ⟨99, 1, 5⟩]⟩
      = (.productNotFound 99,
         { wDB with order_details := [⟨2, 1, 2, 1, 50⟩], nextDetailId := 3 }) := by
  decide

/-- Claim C6: an order update that supplies a customer id answers NotFound
when the customer does not resolve, and otherwise overwrites the order row's
customer_id and total with the client-supplied values — the total is taken
from the request, not recomputed from line items. -/
theorem update_order_customer_branch (db : DB) (oid : Nat) (req : UpdateOrderReq)
    (cid : Nat) (t : Int)
    (ho : (findOrder db oid).isSome) (hc : req.customer_id = some cid)
    (ht : req.total = some t) :
    (findCustomer db cid = none →
      update_order db oid req = (.customerNotFound cid, db))
    ∧ (∀ c, findCustomer db cid = some c →
        ((update_order db oid req).2).orders
          = db.orders.map (fun o =>
              if o.id == oid then { o with customer_id := cid, total := t } else o)) := by
  obtain ⟨o0, h0⟩ := Option.isSome_iff_exists.mp ho
  constructor
  · intro hnone
    simp [update_order, h0, hc, hnone]
  · intro c hcus
    have hu : update_order db oid req
        = updateProducts (setOrderCustomerTotal db oid cid t) oid req.products := by
      simp [update_order, h0, hc, hcus, ht]
    rw [hu, updateProducts_snd_orders]
    rfl

/-- Witness for C6 at a concrete store: an unresolved customer 99 answers
NotFound and changes nothing; resolving customer 2 with client total 77
overwrites the order row with exactly those values. -/
theorem update_order_customer_branch_witness :
    update_order wDB 1 ⟨some 99, some 77, none⟩ = (.customerNotFound 99, wDB)
    ∧ ((update_order wDB 1 ⟨some 2, some 77, none⟩).2).orders
        = [⟨1, 2, "2024-01-01 00:00:00", 77⟩] := by
  constructor
  · exact (update_order_customer_branch wDB 1 ⟨some 99, some 77, none⟩ 99 77
      (by decide) rfl rfl).1 (by decide)
  · have h := (update_order_customer_branch wDB 1 ⟨some 2, some 77, none⟩ 2 77
      (by decide) rfl rfl).2 ⟨2, "B", "456"⟩ (by decide)
    exact h.trans (by decide)

/-- Claim C3's report clause is contradicted by the code: on a store whose
only order has total 0 and no line items, the repair pass changes nothing
(zero updates, state unchanged) yet the "orders_fixed" list still names that
order — the code binds the full scan list, not the changed orders, to the
report. -/
theorem fix_orders_report_includes_unchanged :
    (fix_orders_with_zero_total wDBempty).2 = wDBempty
    ∧ (fix_orders_with_zero_total wDBempty).1.1 = 0
    ∧ (fix_orders_with_zero_total wDBempty).1.2 = [1] := by decide

theorem detailsFor_updateOrderTotal (db : DB) (oid1 oid2 : Nat) (t : Int) :
    detailsFor (updateOrderTotal db oid1 t) oid2 = detailsFor db oid2 := rfl

/-- Claim C4: reading an order whose stored total is 0 while its joined line
items sum to a positive amount returns the recomputed total and persists it
to the orders row, and a second read of the same order returns the same
corrected value while leaving the store exactly as the first read left it. -/
theorem get_order_write_on_read_repair (db : DB) (oid : Nat) (o : Order)
    (ho : findOrder db oid = some o)
    (hc : (findCustomer db o.customer_id).isSome)
    (ht : o.total = 0)
    (hs : 0 < sumDetails (detailsFor db oid)) :
    get_order db oid
      = (.ok (sumDetails (detailsFor db oid)) (detailsFor db oid),
         updateOrderTotal db oid (sumDetails (detailsFor db oid)))
    ∧ findOrder (updateOrderTotal db oid (sumDetails (detailsFor db oid))) oid
        = some { o with total := sumDetails (detailsFor db oid) }
    ∧ get_order (updateOrderTotal db oid (sumDetails (detailsFor db oid))) oid
        = (.ok (sumDetails (detailsFor db oid)) (detailsFor db oid),
           updateOrderTotal db oid (sumDetails (detailsFor db oid))) := by
  obtain ⟨c, hc2⟩ := Option.isSome_iff_exists.mp hc
  have hne : detailsFor db oid ≠ [] := by
    intro h
    rw [h] at hs
    simp [sumDetails] at hs
  have h1 : get_order db oid
      = (.ok (sumDetails (detailsFor db oid)) (detailsFor db oid),
         updateOrderTotal db oid (sumDetails (detailsFor db oid))) := by
    simp [get_order, ho, hc2, ht, hne, hs]
  have h2 : findOrder (updateOrderTotal db oid (sumDetails (detailsFor db oid))) oid
      = some { o with total := sumDetails (detailsFor db oid) } := by
    rw [findOrder_updateOrderTotal, ho]
    rfl
  refine ⟨h1, h2, ?_⟩
  have hc3 : findCustomer (updateOrderTotal db oid (sumDetails (detailsFor db oid)))
      o.customer_id = some c := hc2
  have hv0 : ¬ (sumDetails (detailsFor db oid) = 0) := by omega
  simp [get_order, h2, hc3, detailsFor_updateOrderTotal, hv0]

/-- Witness for C4 at a concrete store: the zero-total order's line item sums
to 200; both the first and the second read answer 200 and end in the repaired
store. -/
theorem get_order_write_on_read_repair_witness :
    get_order wDBzero 1 = (.ok 200 [⟨1, 1, 1, 2, 100⟩], wDBrepaired)
    ∧ get_order wDBrepaired 1 = (.ok 200 [⟨1, 1, 1, 2, 100⟩], wDBrepaired) := by
  have h := get_order_write_on_read_repair wDBzero 1 ⟨1, 1, "2024-01-01 00:00:00", 0⟩
    (by decide) (by decide) rfl (by decide)
  have heq : updateOrderTotal wDBzero 1 (sumDetails (detailsFor wDBzero 1))
      = wDBrepaired := by decide
  constructor
  · exact h.1.trans (by decide)
  · have h22 := h.2.2
    rw [heq] at h22
    exact h22.trans (by decide)

theorem rawSum_congr (db d : DB) (h : d.order_details = db.order_details) (oid : Nat) :
    rawSum d oid = rawSum db oid := by
  unfold rawSum
  rw [h]

theorem updateOrderTotal_order_details (db : DB) (oid : Nat) (t : Int) :
    (updateOrderTotal db oid t).order_details = db.order_details := rfl

theorem fix_upd_comp_pos (db : DB) (a : Nat) (l : List Nat) (ha : 0 < rawSum db a)
    (o : Order) :
    ((fun o2 : Order => if o2.id ∈ l ∧ 0 < rawSum db o2.id
        then { o2 with total := rawSum db o2.id } else o2) ∘
     (fun o2 : Order => if o2.id == a then { o2 with total := rawSum db a } else o2)) o
    = (if o.id ∈ a :: l ∧ 0 < rawSum db o.id
       then { o with total := rawSum db o.id } else o) := by
  simp only [Function.comp_apply]
  by_cases h1 : o.id = a
  · by_cases h2 : o.id ∈ l <;> simp [h1, h2, ha, List.mem_cons]
  · by_cases h2 : o.id ∈ l <;> by_cases h3 : 0 < rawSum db o.id <;>
      simp [h1, h2, h3, List.mem_cons]

theorem fix_upd_skip (db : DB) (a : Nat) (l : List Nat) (ha : ¬ 0 < rawSum db a)
    (o : Order) :
    (if o.id ∈ l ∧ 0 < rawSum db o.id then { o with total := rawSum db o.id } else o)
    = (if o.id ∈ a :: l ∧ 0 < rawSum db o.id
       then { o with total := rawSum db o.id } else o) := by
  by_cases h1 : o.id = a
  · simp [h1, ha, List.mem_cons]
  · simp [h1, List.mem_cons]

theorem foldl_fixStep_spec (db : DB) :
    ∀ (l : List Nat) (c : Nat) (d : DB), d.order_details = db.order_details →
      l.foldl fixStep (c, d)
        = (c + l.countP (fun a => decide (0 < rawSum db a)),
           { d with orders := d.orders.map (fun o =>
               if o.id ∈ l ∧ 0 < rawSum db o.id
               then { o with total := rawSum db o.id } else o) })
  | [], c, d, h => by
    simp
  | a :: l, c, d, h => by
    rw [List.foldl_cons]
    have hda : rawSum d a = rawSum db a := rawSum_congr db d h a
    by_cases ha : 0 < rawSum db a
    · have hstep : fixStep (c, d) a = (c + 1, updateOrderTotal d a (rawSum db a)) := by
        simp [fixStep, hda, ha]
      rw [hstep, foldl_fixStep_spec db l (c + 1) (updateOrderTotal d a (rawSum db a)) h]
      congr 1
      · simp [List.countP_cons, ha]
        omega
      · simp only [updateOrderTotal]
        congr 1
        rw [List.map_map]
        exact List.map_congr_left (fun o _ => fix_upd_comp_pos db a l ha o)
    · have hstep : fixStep (c, d) a = (c, d) := by
        simp [fixStep, hda, ha]
      rw [hstep, foldl_fixStep_spec db l c d h]
      congr 1
      · simp [List.countP_cons, ha]
      · congr 1
        exact List.map_congr_left (fun o _ => fix_upd_skip db a l ha o)

theorem mem_zeroTotalIds_iff (db : DB) (hnd : (db.orders.map (fun o => o.id)).Nodup)
    (o : Order) (ho : o ∈ db.orders) :
    o.id ∈ zeroTotalIds db ↔ o.total = 0 := by
  constructor
  · intro h
    obtain ⟨o2, h2, hid⟩ := List.mem_map.mp h
    have h2m : o2 ∈ db.orders := List.mem_of_mem_filter h2
    have h2z : o2.total = 0 := by simpa using List.of_mem_filter h2
    have he : o2 = o := List.inj_on_of_nodup_map hnd h2m ho hid
    rw [← he]
    exact h2z
  · intro h
    exact List.mem_map.mpr ⟨o, List.mem_filter.mpr ⟨ho, by simp [h]⟩, rfl⟩

/-- Claim C3, amended to the code's report: the batch repair scans the orders
with stored total zero, persists the recomputed total for exactly those among
them whose line items sum to a positive amount, leaves every other order
(and the other tables) unchanged, and the count in the response message is
the number of orders changed — but the "orders_fixed" list names every
scanned zero-total order, including those whose recomputed total is zero and
that were therefore not changed. -/
theorem fix_orders_with_zero_total_spec (db : DB)
    (hnd : (db.orders.map (fun o => o.id)).Nodup) :
    (fix_orders_with_zero_total db).1.2 = zeroTotalIds db
    ∧ (fix_orders_with_zero_total db).1.1
        = (zeroTotalIds db).countP (fun i => decide (0 < rawSum db i))
    ∧ ((fix_orders_with_zero_total db).2).products = db.products
    ∧ ((fix_orders_with_zero_total db).2).customers = db.customers
    ∧ ((fix_orders_with_zero_total db).2).order_details = db.order_details
    ∧ ((fix_orders_with_zero_total db).2).orders
        = db.orders.map (fun o =>
            if o.total = 0 ∧ 0 < rawSum db o.id
            then { o with total := rawSum db o.id } else o) := by
  have hfold := foldl_fixStep_spec db (zeroTotalIds db) 0 db rfl
  refine ⟨rfl, ?_, ?_, ?_, ?_, ?_⟩
  · show ((zeroTotalIds db).foldl fixStep (0, db)).1 = _
    rw [hfold]
    simp
  · show (((zeroTotalIds db).foldl fixStep (0, db)).2).products = _
    rw [hfold]
  · show (((zeroTotalIds db).foldl fixStep (0, db)).2).customers = _
    rw [hfold]
  · show (((zeroTotalIds db).foldl fixStep (0, db)).2).order_details = _
    rw [hfold]
  · show (((zeroTotalIds db).foldl fixStep (0, db)).2).orders = _
    rw [hfold]
    refine List.map_congr_left (fun o ho => ?_)
    have hiff := mem_zeroTotalIds_iff db hnd o ho
    by_cases h1 : o.total = 0 <;> by_cases h2 : 0 < rawSum db o.id <;>
      simp [hiff, h1, h2]

/-- Witness for the amended C3 at a concrete store: the single zero-total
order has a line item summing to 200, so it is repaired, counted and
reported. -/
theorem fix_orders_with_zero_total_spec_witness :
    (fix_orders_with_zero_total wDBzero).1.2 = [1]
    ∧ (fix_orders_with_zero_total wDBzero).1.1 = 1
    ∧ ((fix_orders_with_zero_total wDBzero).2).orders
        = [⟨1, 1, "2024-01-01 00:00:00", 200⟩] := by
  have h := fix_orders_with_zero_total_spec wDBzero (by decide)
  exact ⟨h.1.trans (by decide), h.2.1.trans (by decide),
    h.2.2.2.2.2.trans (by decide)⟩

end ShopApi
